import Mathlib

/-!
Shallow embedding of `src/workers/app.ts` (supermemory-mcp worker).

The file models, in order:
* the identity validator `isValidUserId` (the anchored pattern
  `[A-Za-z0-9_-]{10,50}` applied to the whole candidate string);
* the path helpers `extractUserIdFromPath` and the first-segment read
  `url.pathname.split("/")[1]` used by the durable object;
* the entry router `default.fetch` (`workerRoute`), including its
  `pathname.includes("sse") || pathname.endsWith("/messages")` dispatch and
  the deterministic locator `idFromName("user-" + userId)`;
* the durable object `MyDurableObject`: `validateAndSetUserContext`,
  `getOrCreateTransport`, and `fetch` with its inner Hono server
  (userId middleware, `/sse` and `/messages` routes, `onError`);
* the tool server `createSuperMemory` with its add/search handlers and the
  calls they issue to the external memory store.

Machine integers do not occur; timestamps (`Date` values) are `Nat`.
Thrown JavaScript errors are `Except JsError`.
-/

namespace SupermemoryMcp

/-! ### Identity Validator (`isValidUserId`, app.ts lines 324-328) -/

/-- One character of the regex class `[A-Za-z0-9_-]`. -/
def isUrlSafe (c : Char) : Bool :=
  ('A' ≤ c && c ≤ 'Z') || ('a' ≤ c && c ≤ 'z') || ('0' ≤ c && c ≤ '9') ||
    c = '_' || c = '-'

/-- The anchored matcher for `^[A-Za-z0-9_-]{10,50}$`: consume the whole
candidate, every character in the class, counting; the count must land in
`[10, 50]` at the end of input. -/
def matchTail : List Char → Nat → Bool
  | [], n => 10 ≤ n && n ≤ 50
  | c :: cs, n => isUrlSafe c && matchTail cs (n + 1)

/-- `isValidUserId(userId)` from app.ts: `/^[A-Za-z0-9_-]{10,50}$/.test(userId)`.
A pure function of the candidate string. -/
def isValidUserId (userId : String) : Bool :=
  matchTail userId.data 0

/-! ### Path helpers -/

/-- JS `String.prototype.split("/")` on a character list: splitting at every
`'/'`, keeping empty pieces (so `"".split("/") = [""]` and
`"/a".split("/") = ["", "a"]`). -/
def splitSlashChars : List Char → List String
  | [] => [""]
  | c :: cs =>
    let rest := splitSlashChars cs
    if c = '/' then "" :: rest
    else
      match rest with
      | [] => [String.mk [c]]
      | s :: ss => String.mk (c :: s.data) :: ss

/-- JS `pathname.split("/")`. -/
def splitSlash (pathname : String) : List String :=
  splitSlashChars pathname.data

/-- The durable object's `url.pathname.split("/")[1]` (app.ts line 220);
a missing index reads as the empty string (JS `undefined` is falsy exactly as
`""` is, and both are caught by the same `!requestUserId` guard). -/
def segment1 (pathname : String) : String :=
  (splitSlash pathname).getD 1 ""

/-- `pathname.split("/").filter(Boolean)`: the non-empty path segments. -/
def pathParts (pathname : String) : List String :=
  (splitSlash pathname).filter (fun s => s != "")

/-- `extractUserIdFromPath(pathname)` from app.ts lines 313-319. -/
def extractUserIdFromPath (pathname : String) : Option String :=
  match pathParts pathname with
  | p0 :: p1 :: _ =>
    if p1 = "sse" ∨ p1 = "messages" then some p0 else none
  | _ => none

/-- JS `haystack.startsWith(needle)` on character lists. -/
def beginsWithList : List Char → List Char → Bool
  | _, [] => true
  | [], _ :: _ => false
  | c :: cs, d :: ds => c = d && beginsWithList cs ds

/-- JS `haystack.includes(needle)` on character lists. -/
def hasSubList (needle : List Char) : List Char → Bool
  | [] => beginsWithList [] needle
  | c :: cs => beginsWithList (c :: cs) needle || hasSubList needle cs

/-- JS `s.includes(sub)` (substring containment). -/
def strIncludes (s sub : String) : Bool :=
  hasSubList sub.data s.data

/-- JS `s.endsWith(sub)` (suffix test, via the reversed character lists). -/
def strEndsWith (s sub : String) : Bool :=
  beginsWithList s.data.reverse sub.data.reverse

/-! ### Deterministic Locator and Entry Router (`default.fetch`, lines 330-368) -/

/-- The durable-object name handed to `namespace.idFromName` at app.ts
line 359: the template literal `user-${userId}`.  The platform's
`idFromName` is a deterministic function of this name, so the name itself is
the locator the source computes from the identity. -/
def locate (userId : String) : String :=
  "user-" ++ userId

/-- Outcome of the entry router for one request. -/
inductive RouteDecision where
  | toSessionActor (locator : String) (userId : String)
  | reject400 (body : String)
  | toPageHandler
deriving Repr, DecidableEq

/-- `default.fetch` routing (app.ts lines 330-368): the streaming branch is
taken when the pathname contains `"sse"` anywhere or ends with
`"/messages"`; inside it the userId is extracted and validated, otherwise the
request goes to the react-router page handler. -/
def workerRoute (pathname : String) : RouteDecision :=
  if strIncludes pathname "sse" || strEndsWith pathname "/messages" then
    match extractUserIdFromPath pathname with
    | none => .reject400 "Invalid request: userId not found in path"
    | some userId =>
      if isValidUserId userId = false then
        .reject400 "Invalid request: malformed userId"
      else
        .toSessionActor (locate userId) userId
  else
    .toPageHandler

/-- The spec-side description of a session path: exactly
`/{identity}/sse` or `/{identity}/messages` for a validated identity. -/
def isSessionFormPath (pathname : String) : Bool :=
  match splitSlash pathname with
  | ["", userId, "sse"] => isValidUserId userId
  | ["", userId, "messages"] => isValidUserId userId
  | _ => false

/-! ### Errors thrown by the worker code -/

/-- The JavaScript errors the modelled code can throw. -/
inductive JsError where
  | contextMismatch (expected got : String)
  | transportNotReady
  | transportNotInitialized
  | referenceError (name : String)
deriving Repr, DecidableEq

/-- The `message` of each thrown error, as interpolated by the source
(`new Error(...)` for the mismatch and the missing transport; a JS engine's
message for the unresolved identifier; the TransportNotReady failure is the
spec's name for the transport error, see `handlePostMessage`). -/
def JsError.message : JsError → String
  | .contextMismatch expected got =>
    "Security violation: User context mismatch. Expected " ++ expected ++
      ", got " ++ got
  | .transportNotReady => "TransportNotReady: stream not established"
  | .transportNotInitialized => "Transport not initialized"
  | .referenceError n => "ReferenceError: " ++ n ++ " is not defined"

/-! ### Session Context and `validateAndSetUserContext` (app.ts lines 167-203) -/

/-- `UserContext` from app.ts: `{userId, createdAt, lastAccessed}`.  `Date`
values are modelled as `Nat` timestamps. -/
structure UserContext where
  userId : String
  createdAt : Nat
  lastAccessed : Nat
deriving Repr, DecidableEq

/-- `MyDurableObject.validateAndSetUserContext(requestUserId)`: reads the
stored context; on a userId mismatch throws, else refreshes `lastAccessed`
and persists; on first use creates and persists a fresh context.  The
returned context is both the new in-memory `this.userContext` and the value
written back to storage (the source `put`s it in both non-throwing
branches); when the result is `Except.error`, storage was not written. -/
def validateAndSetUserContext (stored : Option UserContext)
    (requestUserId : String) (now : Nat) : Except JsError UserContext :=
  match stored with
  | some storedContext =>
    if storedContext.userId ≠ requestUserId then
      .error (.contextMismatch storedContext.userId requestUserId)
    else
      .ok { storedContext with lastAccessed := now }
  | none =>
    .ok { userId := requestUserId, createdAt := now, lastAccessed := now }

/-! ### Duplex transport (`SSEHonoTransport` of muppet/streaming) -/

/-- The transport state the durable object holds: the endpoint and session id
it is constructed with (app.ts lines 208-216), whether a stream has been
connected (`connectWithStream`), and the messages delivered in order to the
protocol bridge.  Stream handles are modelled as `Nat`. -/
structure SSEHonoTransport where
  endpoint : String
  sessionId : String
  stream : Option Nat
  delivered : List String
deriving Repr, DecidableEq

/-- `MyDurableObject.getOrCreateTransport(userId)` (app.ts lines 208-216):
reuse the existing transport, else construct one for
`/${userId}/messages` with the durable object id as session id. -/
def getOrCreateTransport (transport : Option SSEHonoTransport)
    (userId : String) (doId : String) : SSEHonoTransport :=
  match transport with
  | some t => t
  | none =>
    { endpoint := "/" ++ userId ++ "/messages", sessionId := doId,
      stream := none, delivered := [] }

/-- `transport.connectWithStream(stream)` binds the outbound stream. -/
def connectWithStream (t : SSEHonoTransport) (handle : Nat) :
    SSEHonoTransport :=
  { t with stream := some handle }

/-- Modelled from the spec: `SSEHonoTransport.handlePostMessage` is code of
the `muppet/streaming` dependency, not of this repository's files.  Spec
section 4.4 gives its contract: `deliverInbound(message)` "fails with
TransportNotReady if no stream is attached; otherwise enqueues the message
for the Protocol Bridge to consume in arrival order (FIFO)". -/
def handlePostMessage (t : SSEHonoTransport) (message : String) :
    Except JsError SSEHonoTransport :=
  match t.stream with
  | none => .error .transportNotReady
  | some _ => .ok { t with delivered := t.delivered ++ [message] }

/-! ### External memory store and the tool handlers (`createSuperMemory`) -/

/-- The external memory store: a list of memories, each carrying its
container tags and its content.  Shared across all identities; scoping is
only by the `containerTags` each call passes. -/
abbrev Store := List (List String × String)

/-- One call a tool handler issues to the external store. -/
inductive StoreCall where
  | list (containerTags : List String)
  | add (content : String) (containerTags : List String)
  | search (q : String) (containerTags : List String)
deriving Repr, DecidableEq

/-- The container scope a call passes to the external store. -/
def StoreCall.containerTags : StoreCall → List String
  | .list tags => tags
  | .add _ tags => tags
  | .search _ tags => tags

/-- `supermemory.memories.list({containerTags})`: the contents of the
memories matching one of the given tags. -/
def memoriesList (store : Store) (containerTags : List String) :
    List String :=
  (store.filter (fun e => e.1.any (fun t => containerTags.contains t))).map
    (fun e => e.2)

/-- `supermemory.memories.add({content, containerTags})`. -/
def memoriesAdd (store : Store) (content : String)
    (containerTags : List String) : Store :=
  store ++ [(containerTags, content)]

/-- `supermemory.search.execute({q, containerTags})`: the external service
ranks semantically; the model returns the scoped contents. -/
def searchExecute (store : Store) (q : String)
    (containerTags : List String) : List String :=
  memoriesList store containerTags

/-- An HTTP response: status and body text (tool responses carry their text
content as the body). -/
structure HttpResponse where
  status : Nat
  body : String
deriving Repr, DecidableEq

/-- The `/add` route handler of `createSuperMemory` (app.ts lines 81-118):
validate the userId, list the identity's memories, reject above the limit,
else add.  Returns the new store, the response, and the trace of external
store calls in order. -/
def addRouteHandler (userId : String) (store : Store)
    (thingToRemember : String) : Store × HttpResponse × List StoreCall :=
  if userId = "" ∨ isValidUserId userId = false then
    (store, { status := 400, body := "User ID validation failed" }, [])
  else if (memoriesList store [userId]).length > 2000 then
    (store,
      { status := 400, body := "Memory limit of 2000 memories exceeded" },
      [StoreCall.list [userId]])
  else
    (memoriesAdd store thingToRemember [userId],
      { status := 200, body := "Memory added successfully" },
      [StoreCall.list [userId], StoreCall.add thingToRemember [userId]])

/-- The `/search` route handler of `createSuperMemory` (app.ts lines
134-157): validate the userId, then query the external store scoped by it. -/
def searchRouteHandler (userId : String) (store : Store)
    (informationToGet : String) : HttpResponse × List StoreCall :=
  if userId = "" ∨ isValidUserId userId = false then
    ({ status := 400, body := "User ID validation failed" }, [])
  else
    let results := searchExecute store informationToGet [userId]
    ({ status := 200, body := String.intercalate "," results },
      [StoreCall.search informationToGet [userId]])

/-- The identifiers bound at the top level of the module `app.ts` (its
imports aside, none of which is named `app`): used to resolve a free
identifier the way the JavaScript engine does. -/
def moduleTopLevelNames : List String :=
  ["requestHandler", "createSuperMemory", "MyDurableObject",
    "extractUserIdFromPath", "isValidUserId"]

/-- The tool server `createSuperMemory` returns: the prompts and tools
registered on the `userApp` Hono instance. -/
structure ToolServer where
  prompts : List String
  tools : List String
deriving Repr, DecidableEq

/-- `createSuperMemory(userId, env)` (app.ts lines 38-162).  It registers
the prompt route on `userApp` (line 44), but the `/add` tool route on the
bare identifier `app` (line 68), which no top-level declaration of the
module binds — so evaluating `app.post(...)` throws a ReferenceError before
the `/search` registration (line 121) is reached.  (Were a global `app`
bound, `addToSupermemory` would be registered on it and still not on the
returned `userApp`.) -/
def createSuperMemory (userId : String) : Except JsError ToolServer :=
  let userApp : ToolServer := { prompts := ["Supermemory Prompt"], tools := [] }
  if (moduleTopLevelNames.contains "app") = false then
    .error (.referenceError "app")
  else
    .ok { userApp with tools := userApp.tools ++ ["searchSupermemory"] }

/-! ### The durable object `MyDurableObject.fetch` (app.ts lines 218-306) -/

/-- The durable object instance state: the persisted storage entry
`"userContext"` and the in-memory transport, plus the platform-assigned
instance id (`this.ctx.id`). -/
structure DOState where
  storage : Option UserContext
  transport : Option SSEHonoTransport
  doId : String
deriving Repr, DecidableEq

/-- Body of the inner middleware's 400 rejection, `c.json({error: ...}, 400)`. -/
def middleware400Body : String :=
  "\x7b\"error\":\"Invalid or missing user ID\"\x7d"

/-- Body of the inner middleware's 403 rejection, `c.json({error: ...}, 403)`. -/
def middleware403Body : String :=
  "\x7b\"error\":\"User context validation failed\"\x7d"

/-- The inner user-scoped Hono server (app.ts lines 240-300): basePath
`/:userId` with routes `/sse` and `/messages`, the userId middleware, and
`onError` converting a thrown error to a 500 with the error message.  The
`/sse` route connects the stream to the transport and starts the bridge over
`createSuperMemory` (whose failure happens inside the already-started
stream); the `/messages` route checks the env transport and delegates to
`handlePostMessage`.  Returns the updated transport and the response. -/
def innerServerFetch (userContext : UserContext)
    (transport : SSEHonoTransport) (pathname body : String) (now : Nat) :
    SSEHonoTransport × HttpResponse :=
  match pathParts pathname with
  | [userId, route] =>
    if route = "sse" ∨ route = "messages" then
      if userId = "" ∨ isValidUserId userId = false then
        (transport, { status := 400, body := middleware400Body })
      else if userId ≠ userContext.userId then
        (transport, { status := 403, body := middleware403Body })
      else if route = "sse" then
        let connected := connectWithStream transport now
        match createSuperMemory userId with
        | .error e =>
          (connected,
            { status := 200,
              body := "event stream; bridge failed: " ++ e.message })
        | .ok _ => (connected, { status := 200, body := "event stream" })
      else
        match handlePostMessage transport body with
        | .error e => (transport, { status := 500, body := e.message })
        | .ok t => (t, { status := 200, body := "ok" })
    else (transport, { status := 404, body := "404 Not Found" })
  | _ => (transport, { status := 404, body := "404 Not Found" })

/-- `MyDurableObject.fetch(request)` (app.ts lines 218-306): read the userId
from the path, 400 if missing or malformed, run
`validateAndSetUserContext` and `getOrCreateTransport` (a thrown mismatch
becomes the 403 `Security validation failed: ...` response, leaving the
state untouched), then serve the request through the inner server. -/
def doFetch (st : DOState) (pathname body : String) (now : Nat) :
    DOState × HttpResponse :=
  let requestUserId := segment1 pathname
  if requestUserId = "" ∨ isValidUserId requestUserId = false then
    (st, { status := 400, body := "Invalid or missing userId in request path" })
  else
    match validateAndSetUserContext st.storage requestUserId now with
    | .error e =>
      (st, { status := 403, body := "Security validation failed: " ++ e.message })
    | .ok ctx =>
      let transport := getOrCreateTransport st.transport requestUserId st.doId
      let served := innerServerFetch ctx transport pathname body now
      ({ st with storage := some ctx, transport := some served.1 }, served.2)

/-! ### Concrete instances used by witnesses and counterexamples -/

/-- A session context bound to the identity `abcdefghij`. -/
def demoContext : UserContext :=
  { userId := "abcdefghij", createdAt := 5, lastAccessed := 7 }

/-- A durable-object state persisted for `abcdefghij`, with no transport
created yet (no stream has ever been opened on this instance). -/
def demoState : DOState :=
  { storage := some demoContext, transport := none, doId := "do-1" }

/-- A store in which the identity `abcdefghij` holds exactly 2000 memories. -/
def store2000 : Store :=
  List.replicate 2000 (["abcdefghij"], "m")

/-! ### Theorems about the validator, the locator and the entry router -/

theorem matchTail_eq_true_iff (l : List Char) (n : Nat) :
    matchTail l n = true ↔
      (10 ≤ n + l.length ∧ n + l.length ≤ 50 ∧ ∀ c ∈ l, isUrlSafe c = true) := by
  induction l generalizing n with
  | nil => simp [matchTail]
  | cons c cs ih =>
    simp only [matchTail, Bool.and_eq_true, ih (n + 1), List.length_cons,
      List.mem_cons]
    constructor
    · rintro ⟨hc, h1, h2, h3⟩
      refine ⟨by omega, by omega, ?_⟩
      rintro d (rfl | hd)
      · exact hc
      · exact h3 d hd
    · rintro ⟨h1, h2, h3⟩
      exact ⟨h3 c (Or.inl rfl), by omega, by omega, fun d hd => h3 d (Or.inr hd)⟩

theorem isValidUserId_ne_empty (userId : String)
    (h : isValidUserId userId = true) : userId ≠ "" := by
  intro he
  rw [he] at h
  exact absurd h (by decide)

/-- C8: the identity validator accepts a candidate string iff it consists
solely of characters from `[A-Za-z0-9_-]` and its length is between 10 and 50
inclusive.  (It is a pure function of the candidate: `isValidUserId` is a
Lean function of the string alone.) -/
theorem isValidUserId_iff_charset_and_length (userId : String) :
    isValidUserId userId = true ↔
      (10 ≤ userId.length ∧ userId.length ≤ 50 ∧
        ∀ c ∈ userId.data,
          ('A' ≤ c ∧ c ≤ 'Z') ∨ ('a' ≤ c ∧ c ≤ 'z') ∨
            ('0' ≤ c ∧ c ≤ '9') ∨ c = '_' ∨ c = '-') := by
  have hchar : ∀ c : Char, isUrlSafe c = true ↔
      (('A' ≤ c ∧ c ≤ 'Z') ∨ ('a' ≤ c ∧ c ≤ 'z') ∨
        ('0' ≤ c ∧ c ≤ '9') ∨ c = '_' ∨ c = '-') := by
    intro c
    simp only [isUrlSafe, Bool.or_eq_true, Bool.and_eq_true, decide_eq_true_eq]
    tauto
  have hlen : userId.length = userId.data.length := rfl
  rw [isValidUserId, matchTail_eq_true_iff userId.data 0, hlen]
  simp only [Nat.zero_add]
  constructor
  · rintro ⟨h1, h2, h3⟩
    exact ⟨h1, h2, fun c hc => (hchar c).mp (h3 c hc)⟩
  · rintro ⟨h1, h2, h3⟩
    exact ⟨h1, h2, fun c hc => (hchar c).mpr (h3 c hc)⟩

/-- C7: the locator is deterministic (same identity, same locator — it is a
function of the identity alone, independent of any process state) and
injective on validated identities. -/
theorem locate_deterministic_and_injective (idI idJ : String)
    (hvalidI : isValidUserId idI = true) (hvalidJ : isValidUserId idJ = true) :
    locate idI = locate idI ∧ (idI ≠ idJ → locate idI ≠ locate idJ) := by
  refine ⟨rfl, fun hne heq => hne ?_⟩
  have hd := congrArg String.data heq
  rw [locate, locate, String.data_append, String.data_append] at hd
  exact String.ext (List.append_cancel_left hd)

theorem locate_deterministic_and_injective_witness :
    locate "abcdefghij" = locate "abcdefghij" ∧
      ("abcdefghij" ≠ "A123456789" →
        locate "abcdefghij" ≠ locate "A123456789") :=
  locate_deterministic_and_injective "abcdefghij" "A123456789"
    (by decide) (by decide)

/-- C5 (amended): every request whose path neither contains the substring
`"sse"` nor ends with `"/messages"` is forwarded to the page-serving
collaborator unchanged. -/
theorem workerRoute_forwards_nonstream_paths (pathname : String)
    (hsse : strIncludes pathname "sse" = false)
    (hmsg : strEndsWith pathname "/messages" = false) :
    workerRoute pathname = RouteDecision.toPageHandler := by
  simp [workerRoute, hsse, hmsg]

theorem workerRoute_forwards_nonstream_paths_witness :
    strIncludes "/about" "sse" = false ∧
      strEndsWith "/about" "/messages" = false ∧
      workerRoute "/about" = RouteDecision.toPageHandler :=
  ⟨by decide, by decide,
    workerRoute_forwards_nonstream_paths "/about" (by decide) (by decide)⟩

/-- C5 (counterexample): the path `/assets` is not of the form
`/{identity}/sse` or `/{identity}/messages`, yet the entry router does not
forward it to the page handler — because `"assets"` contains the substring
`"sse"`, the router takes the streaming branch and rejects the request with
a 400 instead. -/
theorem workerRoute_assets_not_forwarded :
    isSessionFormPath "/assets" = false ∧
      workerRoute "/assets" =
        RouteDecision.reject400 "Invalid request: userId not found in path" :=
  ⟨by decide, by decide⟩

/-! ### Theorems about the Session Actor and the tool handlers -/

theorem validateAndSetUserContext_ok_userId (stored : Option UserContext)
    (requestUserId : String) (now : Nat) (ctx : UserContext)
    (h : validateAndSetUserContext stored requestUserId now = .ok ctx) :
    ctx.userId = requestUserId := by
  cases stored with
  | none =>
    simp only [validateAndSetUserContext, Except.ok.injEq] at h
    rw [← h]
  | some storedContext =>
    simp only [validateAndSetUserContext] at h
    by_cases hmatch : storedContext.userId ≠ requestUserId
    · rw [if_pos hmatch] at h
      exact absurd h (by simp)
    · rw [if_neg hmatch] at h
      simp only [Except.ok.injEq] at h
      rw [← h]
      simpa using hmatch

/-- C1: a Session Actor whose persisted context is bound to identity I
rejects every request asserting a different validated identity J with a 403,
and the whole durable-object state — the persisted context included — is
unchanged by that rejected request. -/
theorem sessionActor_rejects_foreign_identity (st : DOState)
    (pathname body : String) (now : Nat) (idI idJ : String)
    (ctx : UserContext) (hstore : st.storage = some ctx)
    (hbound : ctx.userId = idI) (hvalidI : isValidUserId idI = true)
    (hvalidJ : isValidUserId idJ = true) (hne : idI ≠ idJ)
    (hseg : segment1 pathname = idJ) :
    (doFetch st pathname body now).2.status = 403 ∧
      (doFetch st pathname body now).1 = st := by
  have hJne : idJ ≠ "" := isValidUserId_ne_empty idJ hvalidJ
  have hguard : ¬ (idJ = "" ∨ isValidUserId idJ = false) := by
    simp [hJne, hvalidJ]
  have hval : validateAndSetUserContext st.storage idJ now =
      .error (.contextMismatch idI idJ) := by
    rw [hstore]
    simp [validateAndSetUserContext, hbound, hne]
  simp [doFetch, hseg, hguard, hval]

theorem sessionActor_rejects_foreign_identity_witness :
    (doFetch demoState "/A123456789/sse" "" 9).2.status = 403 ∧
      (doFetch demoState "/A123456789/sse" "" 9).1 = demoState :=
  sessionActor_rejects_foreign_identity demoState "/A123456789/sse" "" 9
    "abcdefghij" "A123456789" demoContext rfl rfl (by decide) (by decide)
    (by decide) (by decide)

/-- C2 (amended): the add handler rejects with the quota message and leaves
the external store unmutated only when the identity already holds strictly
more than 2000 memories; at 2000 or fewer — in particular at exactly 2000,
and at one below — the store call succeeds and appends the memory. -/
theorem addHandler_quota_boundary (userId thing : String) (store : Store)
    (hvalid : isValidUserId userId = true) :
    (2000 < (memoriesList store [userId]).length →
        addRouteHandler userId store thing =
          (store,
            { status := 400, body := "Memory limit of 2000 memories exceeded" },
            [StoreCall.list [userId]])) ∧
      ((memoriesList store [userId]).length ≤ 2000 →
        addRouteHandler userId store thing =
          (memoriesAdd store thing [userId],
            { status := 200, body := "Memory added successfully" },
            [StoreCall.list [userId], StoreCall.add thing [userId]])) := by
  have hne := isValidUserId_ne_empty userId hvalid
  constructor
  · intro hlen
    simp [addRouteHandler, hne, hvalid, hlen]
  · intro hlen
    have hq : ¬ (memoriesList store [userId]).length > 2000 := by omega
    simp [addRouteHandler, hne, hvalid, hq]

theorem addHandler_quota_boundary_witness :
    (2000 < (memoriesList [] ["abcdefghij"]).length →
        addRouteHandler "abcdefghij" [] "x" =
          ([],
            { status := 400, body := "Memory limit of 2000 memories exceeded" },
            [StoreCall.list ["abcdefghij"]])) ∧
      ((memoriesList [] ["abcdefghij"]).length ≤ 2000 →
        addRouteHandler "abcdefghij" [] "x" =
          (memoriesAdd [] "x" ["abcdefghij"],
            { status := 200, body := "Memory added successfully" },
            [StoreCall.list ["abcdefghij"], StoreCall.add "x" ["abcdefghij"]])) :=
  addHandler_quota_boundary "abcdefghij" "x" [] (by decide)

/-- C2 (counterexample): with the identity already holding exactly 2000
memories, a further store call does not return QuotaExceeded — it succeeds
with a 200 and mutates the external store. -/
theorem addHandler_succeeds_at_exactly_2000 :
    (memoriesList store2000 ["abcdefghij"]).length = 2000 ∧
      (addRouteHandler "abcdefghij" store2000 "x").2.1 =
        { status := 200, body := "Memory added successfully" } ∧
      (addRouteHandler "abcdefghij" store2000 "x").1 ≠ store2000 := by
  have hmem : memoriesList store2000 ["abcdefghij"] =
      List.replicate 2000 "m" := by
    rw [store2000, memoriesList, List.filter_replicate, if_pos (by decide),
      List.map_replicate]
  have hlen : (memoriesList store2000 ["abcdefghij"]).length = 2000 := by
    rw [hmem, List.length_replicate]
  have hguard : ¬ (("abcdefghij" : String) = "" ∨
      isValidUserId "abcdefghij" = false) := by decide
  have hq : ¬ (memoriesList store2000 ["abcdefghij"]).length > 2000 := by
    omega
  have hadd : addRouteHandler "abcdefghij" store2000 "x" =
      (memoriesAdd store2000 "x" ["abcdefghij"],
        { status := 200, body := "Memory added successfully" },
        [StoreCall.list ["abcdefghij"], StoreCall.add "x" ["abcdefghij"]]) := by
    unfold addRouteHandler
    rw [if_neg hguard, if_neg hq]
  refine ⟨hlen, ?_, ?_⟩
  · rw [hadd]
  · rw [hadd]
    intro hcontra
    have hlens := congrArg List.length hcontra
    rw [memoriesAdd, List.length_append, List.length_singleton] at hlens
    omega

/-- C3 (code evidence): the 403 mismatch response interpolates the bound
identity into its body — `validateAndSetUserContext` throws
`Expected ${storedContext.userId}, got ${requestUserId}` and
`MyDurableObject.fetch` copies the message into the response — so the caller
asserting `A123456789` is shown the bound identity `abcdefghij`. -/
theorem mismatch_response_discloses_bound_identity :
    (doFetch demoState "/A123456789/sse" "" 9).2 =
      { status := 403,
        body := "Security validation failed: Security violation: User context mismatch. Expected abcdefghij, got A123456789" } ∧
      ∃ front back, (doFetch demoState "/A123456789/sse" "" 9).2.body =
        front ++ "abcdefghij" ++ back :=
  ⟨by decide,
    "Security validation failed: Security violation: User context mismatch. Expected ",
    ", got A123456789", by decide⟩

/-- C4 (code evidence): constructing the user-scoped tool server fails for
every identity — the `/add` route is registered on the unbound identifier
`app` (app.ts line 68), so `createSuperMemory` throws a ReferenceError and
never exposes `addToSupermemory` on the returned server. -/
theorem createSuperMemory_throws_referenceError (userId : String) :
    createSuperMemory userId =
      Except.error (JsError.referenceError "app") := rfl

/-- C9: every external-store call a tool handler issues — the list before
the add, the add, and the search — passes exactly the singleton of the
handler's identity as its container scope; no call is global or scoped by
another identity. -/
theorem toolHandlers_scope_by_identity (userId thing q : String)
    (store : Store) :
    (∀ call ∈ (addRouteHandler userId store thing).2.2,
        call.containerTags = [userId]) ∧
      (∀ call ∈ (searchRouteHandler userId store q).2,
        call.containerTags = [userId]) := by
  constructor
  · intro call hcall
    rw [addRouteHandler] at hcall
    split at hcall
    · simp at hcall
    · split at hcall <;>
        · simp at hcall
          first
          | (rw [hcall]; rfl)
          | (rcases hcall with h | h <;> rw [h] <;> rfl)
  · intro call hcall
    rw [searchRouteHandler] at hcall
    split at hcall
    · simp at hcall
    · simp at hcall
      rw [hcall]
      rfl

theorem getD_mem_of_filter_pair (L : List String) (u r : String)
    (hf : L.filter (fun s => s != "") = [u, r]) (hne : L.getD 1 "" ≠ "") :
    L.getD 1 "" = u ∨ L.getD 1 "" = r := by
  match L with
  | [] => exact absurd rfl hne
  | [a] => exact absurd rfl hne
  | a :: b :: t =>
    have hgd : (a :: b :: t).getD 1 "" = b := rfl
    rw [hgd] at hne ⊢
    have hb : (b != "") = true := bne_iff_ne.mpr hne
    by_cases ha : a = ""
    · subst ha
      rw [List.filter_cons, if_neg (by decide), List.filter_cons,
        if_pos hb] at hf
      simp only [List.cons.injEq] at hf
      exact Or.inl hf.1
    · have ha2 : (a != "") = true := bne_iff_ne.mpr ha
      rw [List.filter_cons, if_pos ha2, List.filter_cons, if_pos hb] at hf
      simp only [List.cons.injEq] at hf
      exact Or.inr hf.2.1

theorem secValidationBodyNe (m : String) :
    "Security validation failed: " ++ m ≠ middleware403Body := by
  intro h
  have h1 : ("Security validation failed: ").data =
      'S' :: ("ecurity validation failed: ").data := by decide
  have h0 : ("Security validation failed: " ++ m).data.head? = some 'S' := by
    rw [String.data_append, h1]
    rfl
  rw [h] at h0
  exact absurd h0 (by decide)

theorem innerServerFetch_ne_middleware403 (uc : UserContext)
    (t : SSEHonoTransport) (pathname body : String) (now : Nat)
    (hid : uc.userId = segment1 pathname)
    (hvalidseg : isValidUserId (segment1 pathname) = true) :
    (innerServerFetch uc t pathname body now).2 ≠
      { status := 403, body := middleware403Body } := by
  have hsegne : segment1 pathname ≠ "" :=
    isValidUserId_ne_empty _ hvalidseg
  cases hp : pathParts pathname with
  | nil => simp [innerServerFetch, hp]
  | cons u rest =>
    cases rest with
    | nil => simp [innerServerFetch, hp]
    | cons r rest2 =>
      cases rest2 with
      | cons x rest3 => simp [innerServerFetch, hp]
      | nil =>
        by_cases hroute : (r = "sse" ∨ r = "messages")
        · by_cases hu : (u = "" ∨ isValidUserId u = false)
          · simp [innerServerFetch, hp, hroute, hu]
          · have hfp : (splitSlash pathname).filter (fun s => s != "") =
                [u, r] := hp
            have hseg2 : segment1 pathname = u := by
              rcases getD_mem_of_filter_pair (splitSlash pathname) u r hfp
                  hsegne with h | h
              · exact h
              · exfalso
                have h2 : segment1 pathname = r := h
                rw [h2] at hvalidseg
                rcases hroute with rfl | rfl
                · exact absurd hvalidseg (by decide)
                · exact absurd hvalidseg (by decide)
            have hcheck : ¬ (u ≠ uc.userId) := by
              rw [hid, hseg2]
              simp
            by_cases hsse : r = "sse"
            · subst hsse
              have hcs : createSuperMemory u =
                  Except.error (JsError.referenceError "app") := rfl
              simp [innerServerFetch, hp, hu, hcheck, hcs]
            · have hmsg : r = "messages" := by tauto
              subst hmsg
              cases hpm : handlePostMessage t body with
              | error e =>
                simp [innerServerFetch, hp, hu, hcheck, hpm]
              | ok t2 =>
                simp [innerServerFetch, hp, hu, hcheck, hpm]
        · simp [innerServerFetch, hp, hroute]

/-- C10: the inner middleware's 403 "User context validation failed" branch
is unreachable for requests entering through the actor's fetch: both the
outer check (`validateAndSetUserContext` on `pathname.split("/")[1]`) and
the middleware compare the identity taken from the same path segment, so
once the outer validation has succeeded the middleware comparison passes,
and no response of the actor ever carries the middleware's 403 body. -/
theorem middleware_context_check_unreachable (st : DOState)
    (pathname body : String) (now : Nat) :
    (doFetch st pathname body now).2 ≠
      { status := 403, body := middleware403Body } := by
  by_cases hg : (segment1 pathname = "" ∨
      isValidUserId (segment1 pathname) = false)
  · simp [doFetch, hg]
  · have hvalidseg : isValidUserId (segment1 pathname) = true := by
      cases hb : isValidUserId (segment1 pathname) with
      | false => exact absurd (Or.inr hb) hg
      | true => rfl
    cases hval : validateAndSetUserContext st.storage (segment1 pathname)
        now with
    | error e =>
      simp only [doFetch, if_neg hg, hval]
      intro h
      exact secValidationBodyNe e.message (congrArg HttpResponse.body h)
    | ok ctx =>
      have hgid : ctx.userId = segment1 pathname :=
        validateAndSetUserContext_ok_userId _ _ _ _ hval
      simp only [doFetch, if_neg hg, hval]
      exact innerServerFetch_ne_middleware403 ctx _ pathname body now
        hgid hvalidseg

end SupermemoryMcp
